import Mathlib

/-!
Verification of the sp3 precise-ephemeris reader and interpolator.

Shallow embedding of the C++ sources:
  * `src/include/satellite.hpp`      — `SatelliteId` (3-byte id, strncmp equality)
  * `src/src/sp3_flag_details.hpp`,
    `src/src/sp3flag.hpp`,
    `src/src/sp3flag.cpp`            — `Sp3Event`, `Sp3Flag`, `Sp3FlagWrapper`
  * `src/src/lib/sp3.cpp`            — record parsing (`get_next_position`,
                                       `get_next_velocity`, `get_next_data_block`)
  * `src/src/lib/sp3_read_header.cpp`— header parsing and cross-validation
  * `src/src/neville_interp.cpp`     — scalar and 3-component Neville interpolation
  * `src/src/lib/sv_interpolate.cpp`,
    `src/src/sv_interpolate.hpp`     — `SvInterpolator` (feed, index hunt, windowing)

C++ `double` arithmetic is embedded as exact rational arithmetic (`ℚ`); the
properties settled here are structural (which array feeds which accumulator,
which branch returns which code), not rounding-sensitive.  Machine integers
(`int`, `long`) are embedded as `Int`; all divisions that matter act on
positive operands, where C truncating division agrees with `Int` division.
-/

namespace Sp3

/-! ### SatelliteId  (src/include/satellite.hpp)

A satellite id is `char id[4]` holding 3 significant bytes plus a NUL
terminator.  `set_id` copies exactly `SAT_ID_CHARS = 3` bytes from the input
C string; `operator==` is `!std::strncmp(id, s.id, 3)`.  Bytes are embedded
as `Nat` (0 models the NUL byte). -/

structure SatelliteId where
  b0 : Nat
  b1 : Nat
  b2 : Nat
deriving DecidableEq, Repr

/-- Model of `strncmp(a.id, b.id, 3) == 0`: compare up to 3 bytes, stopping early
(as equal) when a NUL byte is reached on both sides simultaneously. -/
def satEq (a b : SatelliteId) : Bool :=
  if a.b0 ≠ b.b0 then false
  else if a.b0 = 0 then true
  else if a.b1 ≠ b.b1 then false
  else if a.b1 = 0 then true
  else a.b2 = b.b2

/-- Model of `SatelliteId::set_id` / the `explicit SatelliteId(const char *)` path:
`memcpy(id, str, 3)` takes the first three bytes of the input string
(the C string is a byte list; inputs shorter than 3 bytes would read past
the terminator in the source, so theorems restrict to length ≥ 3). -/
def satFromCString (s : List Nat) : SatelliteId :=
  ⟨s.getD 0 0, s.getD 1 0, s.getD 2 0⟩

/-- Model of `Sp3c::has_sv` (src/include/sp3.hpp:99-104): `std::find_if` over the
header's satellite vector with predicate `s == satid`. -/
def has_sv (satVec : List SatelliteId) (satid : SatelliteId) : Bool :=
  satVec.any (fun s => satEq s satid)

/-! ### Sp3Event / Sp3Flag  (src/src/sp3_flag_details.hpp, sp3flag.hpp, sp3flag.cpp) -/

/-- The event enumeration, in declaration order (underlying values 0..11). -/
inductive Sp3Event where
  | bad_abscent_position
  | bad_abscent_clock
  | clock_event
  | clock_prediction
  | maneuver
  | orbit_prediction
  | has_pos_stddev
  | has_clk_stddev
  | bad_abscent_velocity
  | bad_abscent_clock_rate
  | has_vel_stddev
  | has_clk_rate_stdev
deriving DecidableEq, Repr

def Sp3Event.toNat : Sp3Event → Nat
  | .bad_abscent_position => 0
  | .bad_abscent_clock => 1
  | .clock_event => 2
  | .clock_prediction => 3
  | .maneuver => 4
  | .orbit_prediction => 5
  | .has_pos_stddev => 6
  | .has_clk_stddev => 7
  | .bad_abscent_velocity => 8
  | .bad_abscent_clock_rate => 9
  | .has_vel_stddev => 10
  | .has_clk_rate_stdev => 11

/-- Model of `Sp3FlagWrapper`: a bare bit pattern (sp3_flag_details.hpp:17-19). -/
structure Sp3FlagWrapper where
  bits : Nat
deriving DecidableEq, Repr

/-- Model of `operator|(Sp3Event, Sp3Event)` (sp3flag.cpp:14-20): a wrapper with only
the two named bits on. -/
def orEE (e1 e2 : Sp3Event) : Sp3FlagWrapper :=
  ⟨(1 <<< e1.toNat) ||| (1 <<< e2.toNat)⟩

/-- Model of `operator|(Sp3FlagWrapper, Sp3Event)` (sp3flag.cpp:4-11). -/
def orWE (w : Sp3FlagWrapper) (e : Sp3Event) : Sp3FlagWrapper :=
  ⟨w.bits ||| (1 <<< e.toNat)⟩

/-- Model of `Sp3Flag`: the event bitset attached to a data block.  The underlying
C type `uint_fast16_t` is at least 16 bits; only bits 0..11 are ever set. -/
structure Sp3Flag where
  bits : Nat
deriving DecidableEq, Repr

namespace Sp3Flag

/-- Model of `set(Sp3Event)`: `bits_ |= (1 << e)` (sp3flag.hpp:16). -/
def set (f : Sp3Flag) (e : Sp3Event) : Sp3Flag :=
  ⟨f.bits ||| (1 <<< e.toNat)⟩

/-- Model of `set(Sp3FlagWrapper)`: `bits_ = wf.bits_` (sp3flag.hpp:30).  Note this is
an assignment of the wrapper's bits, faithfully embedded as such. -/
def setW (_ : Sp3Flag) (w : Sp3FlagWrapper) : Sp3Flag :=
  ⟨w.bits⟩

/-- Model of `clear(Sp3Event)`: `bits_ &= ~(1 << e)` (sp3flag.hpp:33-35); the
complement of the 16-bit-wide underlying type is embedded as xor against
the 16-bit all-ones mask (events occupy bits 0..11 only). -/
def clear (f : Sp3Flag) (e : Sp3Event) : Sp3Flag :=
  ⟨f.bits &&& (65535 ^^^ (1 <<< e.toNat))⟩

/-- Model of `reset()`: `bits_ = 0` (sp3flag.hpp:38). -/
def reset : Sp3Flag := ⟨0⟩

/-- Model of `is_set(Sp3Event)`: `(bits_ >> e) & 1` (sp3flag.hpp:41-43). -/
def is_set (f : Sp3Flag) (e : Sp3Event) : Bool :=
  (f.bits >>> e.toNat) &&& 1 = 1

/-- Model of `is_clean()`: `!bits_` (sp3flag.hpp:46). -/
def is_clean (f : Sp3Flag) : Bool := f.bits = 0

/-- Model of `set_defaults()` (sp3flag.cpp:28-33): reset, then `set` of the wrapper
or-ing the four absent events. -/
def set_defaults (_ : Sp3Flag) : Sp3Flag :=
  Sp3Flag.reset.setW
    (orWE (orWE (orEE .bad_abscent_position .bad_abscent_clock)
        .bad_abscent_velocity) .bad_abscent_clock_rate)

end Sp3Flag

/-! ### Record lines and the data-block parser  (src/src/lib/sp3.cpp)

The parser works on fixed-column text lines.  A `P`/`V` record line is
embedded at the lexical-field level: its 3-byte satellite id, the results of
the four `strtod` calls at the 14-column stride (`none` models a conversion
failure: `errno == ERANGE || end == start`), the optional std-dev exponent
columns (`none` models blank columns or a line too short for the
`strlen(line) > 68` / `> 71` gates; `some 0` models a non-blank column on
which `strtol` yields no usable value, matching the `!nn` test), and the
four event-marker characters of columns 75/76/79/80. -/

structure RecLine where
  sat : SatelliteId
  f0 : Option ℚ
  f1 : Option ℚ
  f2 : Option ℚ
  f3 : Option ℚ
  s0 : Option Int
  s1 : Option Int
  s2 : Option Int
  sc : Option Int
  e75 : Bool
  p76 : Bool
  m79 : Bool
  e80 : Bool
deriving DecidableEq, Repr

/-- One line of the data section of an Sp3 file, classified by its leading
characters exactly as `get_next_data_block` peeks at them:
`*` epoch header (with the `resolve_epoch_line` outcome: a timestamp in
nanoseconds, or the nonzero error code of a malformed date), `P` and `V`
records, `EP`/`EV` correlation records, the `EOF` sentinel, or anything
else (a structural error). -/
inductive Line where
  | epoch (t : Int)
  | epochBad (code : Int)
  | pos (r : RecLine)
  | vel (r : RecLine)
  | ep
  | ev
  | eofLine
  | junk
deriving DecidableEq, Repr

/-- Model of `SP3_MISSING_CLK_VALUE` (sp3.cpp:16). -/
def SP3_MISSING_CLK_VALUE : ℚ := 999999

/-- The slice of a data block that one `get_next_position` /
`get_next_velocity` call reads and writes: the four state values, the four
std-dev values, the flag, and the satellite-id out-parameter. -/
structure PcSlice where
  x : ℚ
  y : ℚ
  z : ℚ
  c : ℚ
  sx : ℚ
  sy : ℚ
  sz : ℚ
  sc : ℚ
  flag : Sp3Flag
  sat : SatelliteId
deriving DecidableEq, Repr

/-- Model of `Sp3c::get_next_position` (sp3.cpp:233-341).  `l` is the line read off
the stream; `wsat` is the optional requested-satellite filter; `fpbPos` and
`fpbClk` are the header's std-dev exponent bases; `ps` holds the incoming
values of all by-reference outputs.  Returns the `int` status and the
updated outputs. -/
def get_next_position (l : Line) (wsat : Option SatelliteId)
    (fpbPos fpbClk : ℚ) (ps : PcSlice) : Int × PcSlice :=
  match l with
  | .pos r =>
    -- memcpy(sat.id, line + 1, 3)
    let ps := { ps with sat := r.sat }
    -- if (wsat && *wsat != sat): set absent flags, return 0 (fast skip)
    if ∃ w, wsat = some w ∧ satEq w r.sat = false then
      (0, { ps with flag :=
        (ps.flag.setW (orEE .bad_abscent_position .bad_abscent_clock)) })
    else
      -- four strtod calls; field i failing returns 2 + i
      match r.f0, r.f1, r.f2, r.f3 with
      | none, _, _, _ => (2, ps)
      | some _, none, _, _ => (3, ps)
      | some _, some _, none, _ => (4, ps)
      | some _, some _, some _, none => (5, ps)
      | some xv, some yv, some zv, some cv =>
        let ps := { ps with x := xv, y := yv, z := zv }
        let ps := { ps with flag :=
          if xv = 0 ∨ yv = 0 ∨ zv = 0 then ps.flag.set .bad_abscent_position
          else ps.flag.clear .bad_abscent_position }
        let ps := { ps with c := cv }
        let ps := { ps with flag :=
          if SP3_MISSING_CLK_VALUE ≤ cv then ps.flag.set .bad_abscent_clock
          else ps.flag.clear .bad_abscent_clock }
        -- position std-dev exponents (columns 62-69), each base^exponent
        match r.s0, r.s1, r.s2 with
        | some 0, _, _ => (6, ps)
        | some n0, some 0, _ => (6, { ps with sx := fpbPos ^ n0 })
        | some n0, some n1, some 0 =>
            (6, { ps with sx := fpbPos ^ n0, sy := fpbPos ^ n1 })
        | s0', s1', s2' =>
          let cnt := (if s0'.isSome then 1 else 0) + (if s1'.isSome then 1 else 0)
            + (if s2'.isSome then 1 else 0)
          let ps := { ps with
            sx := match s0' with | some n => fpbPos ^ n | none => ps.sx,
            sy := match s1' with | some n => fpbPos ^ n | none => ps.sy,
            sz := match s2' with | some n => fpbPos ^ n | none => ps.sz }
          let ps := if cnt = 3 then { ps with flag := ps.flag.set .has_pos_stddev }
            else ps
          -- clock std-dev exponent (columns 71-73)
          match r.sc with
          | some 0 => (6, ps)
          | some nc =>
            let ps := { ps with sc := fpbClk ^ nc }
            let ps := { ps with flag := ps.flag.set .has_clk_stddev }
            -- event characters at columns 75/76/79/80
            let ps := if r.e75 then { ps with flag := ps.flag.set .clock_event } else ps
            let ps := if r.p76 then { ps with flag := ps.flag.set .clock_prediction } else ps
            let ps := if r.m79 then { ps with flag := ps.flag.set .maneuver } else ps
            let ps := if r.e80 then { ps with flag := ps.flag.set .orbit_prediction } else ps
            (0, ps)
          | none =>
            let ps := if r.e75 then { ps with flag := ps.flag.set .clock_event } else ps
            let ps := if r.p76 then { ps with flag := ps.flag.set .clock_prediction } else ps
            let ps := if r.m79 then { ps with flag := ps.flag.set .maneuver } else ps
            let ps := if r.e80 then { ps with flag := ps.flag.set .orbit_prediction } else ps
            (0, ps)
  | _ => (1, ps)   -- *line != 'P'

/-- Model of `Sp3c::get_next_velocity` (sp3.cpp:109-210): symmetric to
`get_next_position` for velocity / clock-rate, without the event-character
section, acting on the velocity flags. -/
def get_next_velocity (l : Line) (wsat : Option SatelliteId)
    (fpbPos fpbClk : ℚ) (ps : PcSlice) : Int × PcSlice :=
  match l with
  | .vel r =>
    let ps := { ps with sat := r.sat }
    if ∃ w, wsat = some w ∧ satEq w r.sat = false then
      (0, { ps with flag :=
        (ps.flag.setW (orEE .bad_abscent_velocity .bad_abscent_clock_rate)) })
    else
      match r.f0, r.f1, r.f2, r.f3 with
      | none, _, _, _ => (2, ps)
      | some _, none, _, _ => (3, ps)
      | some _, some _, none, _ => (4, ps)
      | some _, some _, some _, none => (5, ps)
      | some xv, some yv, some zv, some cv =>
        let ps := { ps with x := xv, y := yv, z := zv }
        let ps := { ps with flag :=
          if xv = 0 ∨ yv = 0 ∨ zv = 0 then ps.flag.set .bad_abscent_velocity
          else ps.flag.clear .bad_abscent_velocity }
        let ps := { ps with c := cv }
        let ps := { ps with flag :=
          if SP3_MISSING_CLK_VALUE ≤ cv then ps.flag.set .bad_abscent_clock_rate
          else ps.flag.clear .bad_abscent_clock_rate }
        match r.s0, r.s1, r.s2 with
        | some 0, _, _ => (6, ps)
        | some n0, some 0, _ => (6, { ps with sx := fpbPos ^ n0 })
        | some n0, some n1, some 0 =>
            (6, { ps with sx := fpbPos ^ n0, sy := fpbPos ^ n1 })
        | s0', s1', s2' =>
          let cnt := (if s0'.isSome then 1 else 0) + (if s1'.isSome then 1 else 0)
            + (if s2'.isSome then 1 else 0)
          let ps := { ps with
            sx := match s0' with | some n => fpbPos ^ n | none => ps.sx,
            sy := match s1' with | some n => fpbPos ^ n | none => ps.sy,
            sz := match s2' with | some n => fpbPos ^ n | none => ps.sz }
          let ps := if cnt = 3 then { ps with flag := ps.flag.set .has_vel_stddev }
            else ps
          match r.sc with
          | some 0 => (6, ps)
          | some nc =>
            let ps := { ps with sc := fpbClk ^ nc }
            (0, { ps with flag := ps.flag.set .has_clk_rate_stdev })
          | none => (0, ps)
  | _ => (1, ps)   -- *line != 'V'

/-! ### Sp3DataBlock and get_next_data_block  (src/include/sp3.hpp:25-30, sp3.cpp:410-486) -/

/-- Model of `Sp3DataBlock`: timestamp (nanoseconds), `state[8]` =
`[X, Y, Z, clk, Vx, Vy, Vz, Vc]`, `state_sdev[8]`, and the flag.  The C++
default constructor initializes only `t` and the flag; the numeric arrays
start indeterminate, so theorems take the initial contents as inputs. -/
structure Sp3DataBlock where
  t : Int
  px : ℚ
  py : ℚ
  pz : ℚ
  pc : ℚ
  vx : ℚ
  vy : ℚ
  vz : ℚ
  vc : ℚ
  spx : ℚ
  spy : ℚ
  spz : ℚ
  spc : ℚ
  svx : ℚ
  svy : ℚ
  svz : ℚ
  svc : ℚ
  flag : Sp3Flag
deriving DecidableEq, Repr

/-- The `state[0..3]` / `state_sdev[0..3]` slice passed by reference to
`get_next_position` (sp3.cpp:458-461), together with the flag and the
satellite-id variable. -/
def posSlice (b : Sp3DataBlock) (sat : SatelliteId) : PcSlice :=
  ⟨b.px, b.py, b.pz, b.pc, b.spx, b.spy, b.spz, b.spc, b.flag, sat⟩

/-- Write the position slice back into the block. -/
def writePos (b : Sp3DataBlock) (ps : PcSlice) : Sp3DataBlock :=
  { b with px := ps.x, py := ps.y, pz := ps.z, pc := ps.c,
           spx := ps.sx, spy := ps.sy, spz := ps.sz, spc := ps.sc,
           flag := ps.flag }

/-- The `state[4..7]` / `state_sdev[4..7]` slice passed by reference to
`get_next_velocity` (sp3.cpp:464-467). -/
def velSlice (b : Sp3DataBlock) (sat : SatelliteId) : PcSlice :=
  ⟨b.vx, b.vy, b.vz, b.vc, b.svx, b.svy, b.svz, b.svc, b.flag, sat⟩

/-- Write the velocity slice back into the block. -/
def writeVel (b : Sp3DataBlock) (ps : PcSlice) : Sp3DataBlock :=
  { b with vx := ps.x, vy := ps.y, vz := ps.z, vc := ps.c,
           svx := ps.sx, svy := ps.sy, svz := ps.sz, svc := ps.sc,
           flag := ps.flag }

/-- The reader's data-section cursor: the lines not yet consumed, plus the
stream's good/fail state (`getline` past the end sets the fail bit). -/
structure Stream where
  lines : List Line
  good : Bool
deriving DecidableEq, Repr

/-- The record loop of `get_next_data_block` (sp3.cpp:451-483): keep
consuming record lines until the next epoch header is peeked (not consumed)
or the `EOF` sentinel line is consumed.

The source passes the same variable `satid` both as the record-id output
`sat` and as the filter pointer `wsat` (sp3.cpp:458-461 and 464-467; the
local `csatid` of line 427 is never used).  `get_next_position` first
copies the line's id into `sat`, so when it compares `*wsat != sat` the
filter value is the id just copied from the line; the call is therefore
embedded with `wsat := some r.sat`, and the mutated `satid` is threaded to
the next iteration. -/
def dbLoop (satid : SatelliteId) (fpbPos fpbClk : ℚ) (blk : Sp3DataBlock) :
    List Line → Int × Sp3DataBlock × Stream
  | [] => (150, blk, ⟨[], false⟩)
  | Line.epoch t :: rest => (0, blk, ⟨Line.epoch t :: rest, true⟩)
  | Line.epochBad c :: rest => (0, blk, ⟨Line.epochBad c :: rest, true⟩)
  | Line.pos r :: rest =>
    let res := get_next_position (Line.pos r) (some r.sat) fpbPos fpbClk
      (posSlice blk satid)
    if res.1 ≠ 0 then (res.1 + 20, writePos blk res.2, ⟨rest, true⟩)
    else dbLoop res.2.sat fpbPos fpbClk (writePos blk res.2) rest
  | Line.vel r :: rest =>
    let res := get_next_velocity (Line.vel r) (some r.sat) fpbPos fpbClk
      (velSlice blk satid)
    if res.1 ≠ 0 then (res.1 + 30, writeVel blk res.2, ⟨rest, true⟩)
    else dbLoop res.2.sat fpbPos fpbClk (writeVel blk res.2) rest
  | Line.ep :: rest => dbLoop satid fpbPos fpbClk blk rest
  | Line.ev :: rest => dbLoop satid fpbPos fpbClk blk rest
  | Line.eofLine :: rest => (-1, blk, ⟨rest, true⟩)
  | Line.junk :: rest => (150, blk, ⟨rest, true⟩)

/-- Model of `Sp3c::get_next_data_block` (sp3.cpp:410-486): expects the cursor at an
epoch header line.  A `*` line is resolved into `block.t` (a resolve
failure of code `c` returns `c + 10`), the flag is reset to pessimistic
defaults, and the record loop runs.  A non-`*` line is consumed: the `EOF`
sentinel reports end-of-stream (−1), anything else is the structural error
100.  An exhausted stream fails the `getline` (fail bit set) and also
returns 100. -/
def get_next_data_block (satid : SatelliteId) (fpbPos fpbClk : ℚ)
    (blk : Sp3DataBlock) (st : Stream) : Int × Sp3DataBlock × Stream :=
  if !st.good then (1, blk, st)
  else
    match st.lines with
    | [] => (100, blk, ⟨[], false⟩)
    | Line.epoch t :: rest =>
      let blk := { blk with t := t }
      let blk := { blk with flag := blk.flag.set_defaults }
      dbLoop satid fpbPos fpbClk blk rest
    | Line.epochBad c :: rest => (c + 10, blk, ⟨rest, true⟩)
    | Line.eofLine :: rest => (-1, blk, ⟨rest, true⟩)
    | _ :: rest => (100, blk, ⟨rest, true⟩)

/-! ### SvInterpolator: feed and workspace  (src/src/lib/sv_interpolate.cpp) -/

/-- The read loop of `SvInterpolator::feed_from_sp3`
(sv_interpolate.cpp:39-49): `while (!(error = get_next_data_block(svid,
block)))`, appending every returned block except those with both
absent-position and absent-clock set.  Fuel bounds the recursion; every
successful call consumes at least its epoch line, so fuel exceeding the
number of stream lines is never exhausted (the fuel-out branch is
unreachable in every use below). -/
def feedLoop (satid : SatelliteId) (fpbPos fpbClk : ℚ) :
    Nat → Sp3DataBlock → Stream → List Sp3DataBlock → Int × List Sp3DataBlock
  | 0, _, _, acc => (101, acc)
  | fuel + 1, blk, st, acc =>
    let res := get_next_data_block satid fpbPos fpbClk blk st
    if res.1 = 0 then
      let acc := if ¬(res.2.1.flag.is_set .bad_abscent_position
          ∧ res.2.1.flag.is_set .bad_abscent_clock) then acc ++ [res.2.1] else acc
      feedLoop satid fpbPos fpbClk fuel res.2.1 res.2.2 acc
    else (res.1, acc)

/-- Model of `SvInterpolator::feed_from_sp3` (sv_interpolate.cpp:11-67).  `satVec`
and `numEpochs` are the header's satellite list and declared epoch count;
`fileLines` is the data section, to which `sp3->rewind()` resets the
cursor; `blk0` is the stack block's initial (indeterminate) numeric
content with `t` and flag default-initialized.  Returns the function's
`int` result (`error > 0`, or 1 / 2 for the precondition failures) and the
collected series (deleted on error, matching `data = nullptr`). -/
def feed_from_sp3 (satid : SatelliteId) (satVec : List SatelliteId)
    (numEpochs : Int) (fpbPos fpbClk : ℚ) (fileLines : List Line)
    (blk0 : Sp3DataBlock) : Int × List Sp3DataBlock :=
  if numEpochs = 0 then (1, [])
  else if ¬ has_sv satVec satid then (2, [])
  else
    let res := feedLoop satid fpbPos fpbClk (fileLines.length + 1) blk0
      ⟨fileLines, true⟩ []
    if res.1 > 0 then (1, []) else (0, res.2)

/-- Model of `SvInterpolator::compute_workspace_size` (sv_interpolate.cpp:4-11):
the maximum look-around duration in milliseconds is cast to nanoseconds,
divided (C integer division) by the file's nominal interval in
nanoseconds, incremented, doubled, plus one. -/
def compute_workspace_size (maxMillisec intervalNs : Int) : Int :=
  let lrIntrvlNs := maxMillisec * 1000000
  let oneSidePts := Int.tdiv lrIntrvlNs intervalNs
  (oneSidePts + 1) * 2 + 1

/-! ### Neville interpolation  (src/src/neville_interp.cpp)

Both functions receive caller-owned output buffers; their incoming contents
are taken as explicit arguments because the `from_index + mm > array_size`
failure path returns without touching them. -/

/-- The scan of neville_interp.cpp:50-56 / 135-143 locating the index `ns`
of the sample nearest `x` (first minimum; strict improvement). -/
def nevArgmin (x : ℚ) (xpts : Array ℚ) (mm : Nat) : Nat :=
  ((List.range mm).foldl (fun (p : Nat × ℚ) i =>
    let difx := |x - xpts.getD i 0|
    if difx < p.2 then (i, difx) else p) (0, |x - xpts.getD 0 0|)).1

/-- The first `mm` entries of an array (the tableau is seeded from the
ordinates `ypts[0..mm)`). -/
def takeArr (a : Array ℚ) (mm : Nat) : Array ℚ :=
  ((List.range mm).map (fun i => a.getD i 0)).toArray

/-- One tableau column of the scalar algorithm (neville_interp.cpp:65-86):
for each remaining row `i`, `ho = x[i]-x`, `hp = x[i+m]-x`,
`w = c[i+1]-d[i]`; `none` models the `ho - hp == 0` failure (return 5). -/
def nevCols (x : ℚ) (xpts : Array ℚ) (m : Nat) :
    Nat → Nat → Array ℚ → Array ℚ → Option (Array ℚ × Array ℚ)
  | _, 0, c, d => some (c, d)
  | i, k + 1, c, d =>
    let ho := xpts.getD i 0 - x
    let hp := xpts.getD (i + m) 0 - x
    let w := c.getD (i + 1) 0 - d.getD i 0
    let den := ho - hp
    if den = 0 then none
    else
      let dn := w / den
      nevCols x xpts m (i + 1) k (c.setD i (ho * dn)) (d.setD i (hp * dn))

/-- The outer tableau walk of the scalar algorithm (neville_interp.cpp:64-95)
with the correction choice `2*(ns+1) < (mm-m) ? c[ns+1] : d[ns--]`; `k`
counts the remaining columns (`mm - m`). -/
def nevOuter (x : ℚ) (xpts : Array ℚ) (mm : Nat) :
    Nat → Nat → Array ℚ → Array ℚ → ℚ → ℚ → Int → Int × ℚ × ℚ
  | _, 0, _, _, y, dy, _ => (0, y, dy)
  | m, k + 1, c, d, y, dy, ns =>
    match nevCols x xpts m 0 (mm - m) c d with
    | none => (5, y, dy)
    | some (c', d') =>
      if 2 * (ns + 1) < (mm : Int) - (m : Int) then
        let dy' := c'.getD (ns + 1).toNat 0
        nevOuter x xpts mm (m + 1) k c' d' (y + dy') dy' ns
      else
        let dy' := d'.getD ns.toNat 0
        nevOuter x xpts mm (m + 1) k c' d' (y + dy') dy' (ns - 1)

/-- Model of `dso::sp3::neville_interpolation` (neville_interp.cpp:24-97).  `y0` and
`dy0` are the incoming contents of the output parameters `y` and `dy`
(returned unchanged on the not-enough-points failure, code 1; `dy` is also
left unchanged when `mm = 1`).  The optional caller workspace `cws`/`dws`
only avoids allocation: the tableau entries read are always overwritten
first, so the embedding seeds fresh arrays. -/
def neville_interpolation (x y0 dy0 : ℚ) (xx yy : List ℚ)
    (array_size mm from_index : Nat) : Int × ℚ × ℚ :=
  if from_index + mm > array_size then (1, y0, dy0)
  else
    let xpts := (xx.drop from_index).toArray
    let ypts := (yy.drop from_index).toArray
    let seed := takeArr ypts mm
    let ns := nevArgmin x xpts mm
    let y := ypts.getD ns 0
    nevOuter x xpts mm 1 (mm - 1) seed seed y dy0 ((ns : Int) - 1)

/-- The tableau state of `neville_interpolation3`.  The workspace is sliced
at `array_size` strides (neville_interp.cpp:123-128): `cx`, `dx`, `cy` get
their own slices, but `dy` and `cz` are BOTH `workspace + 3*array_size`,
i.e. one shared slice, embedded here as the single field `dycz`; `dz` is
`workspace + 4*array_size`. -/
structure Nev3State where
  cx : Array ℚ
  dx : Array ℚ
  cy : Array ℚ
  dycz : Array ℚ
  dz : Array ℚ
  e0 : ℚ
  e1 : ℚ
  e2 : ℚ
  de0 : ℚ
  de1 : ℚ
  de2 : ℚ
  nsx : Int
  nsy : Int
  nsz : Int
deriving DecidableEq, Repr

/-- One tableau column of `neville_interpolation3`
(neville_interp.cpp:166-192), preserving the source's write order into the
shared `dy`/`cz` slice: per row, `dy[i] := hp*deny` is later overwritten by
`cz[i] := ho*denz`, and `cz[i+1]` is read after the row-`i` `dy` write. -/
def nev3Cols (t : ℚ) (tpts : Array ℚ) (m : Nat) :
    Nat → Nat → Nev3State → Option Nev3State
  | _, 0, s => some s
  | i, k + 1, s =>
    let ho := tpts.getD i 0 - t
    let hp := tpts.getD (i + m) 0 - t
    let den := ho - hp
    if den = 0 then none
    else
      let wx := s.cx.getD (i + 1) 0 - s.dx.getD i 0
      let denx := wx / den
      let s := { s with dx := s.dx.setD i (hp * denx), cx := s.cx.setD i (ho * denx) }
      let wy := s.cy.getD (i + 1) 0 - s.dycz.getD i 0
      let deny := wy / den
      let s := { s with dycz := s.dycz.setD i (hp * deny), cy := s.cy.setD i (ho * deny) }
      let wz := s.dycz.getD (i + 1) 0 - s.dz.getD i 0
      let denz := wz / den
      let s := { s with dz := s.dz.setD i (hp * denz), dycz := s.dycz.setD i (ho * denz) }
      nev3Cols t tpts m (i + 1) k s

/-- The outer walk of `neville_interpolation3` (neville_interp.cpp:164-203).
The accumulation (source lines 200-202) reads `cx`/`dx` for all three
components — exactly as written in the source, where the `y` and `z`
estimates take their corrections from the x tableau. -/
def nev3Outer (t : ℚ) (tpts : Array ℚ) (mm : Nat) :
    Nat → Nat → Nev3State → Int × Nev3State
  | _, 0, s => (0, s)
  | m, k + 1, s =>
    match nev3Cols t tpts m 0 (mm - m) s with
    | none => (5, s)
    | some s =>
      let s :=
        if 2 * (s.nsx + 1) < (mm : Int) - (m : Int) then
          let v := s.cx.getD (s.nsx + 1).toNat 0
          { s with de0 := v, e0 := s.e0 + v }
        else
          let v := s.dx.getD s.nsx.toNat 0
          { s with de0 := v, e0 := s.e0 + v, nsx := s.nsx - 1 }
      let s :=
        if 2 * (s.nsy + 1) < (mm : Int) - (m : Int) then
          let v := s.cx.getD (s.nsy + 1).toNat 0
          { s with de1 := v, e1 := s.e1 + v }
        else
          let v := s.dx.getD s.nsy.toNat 0
          { s with de1 := v, e1 := s.e1 + v, nsy := s.nsy - 1 }
      let s :=
        if 2 * (s.nsz + 1) < (mm : Int) - (m : Int) then
          let v := s.cx.getD (s.nsz + 1).toNat 0
          { s with de2 := v, e2 := s.e2 + v }
        else
          let v := s.dx.getD s.nsz.toNat 0
          { s with de2 := v, e2 := s.e2 + v, nsz := s.nsz - 1 }
      nev3Outer t tpts mm (m + 1) k s

/-- Model of `dso::sp3::neville_interpolation3` (neville_interp.cpp:102-206).
`est0`/`dest0` are the incoming contents of the `estimates`/`destimates`
buffers.  The tableau seeding follows the source's write order through the
shared `dy`/`cz` slice: lines 145-148 write the y ordinates into it (as
`dy`), lines 150-153 then overwrite it with the z ordinates (as `cz`). -/
def neville_interpolation3 (t : ℚ) (est0 dest0 : ℚ × ℚ × ℚ)
    (tt xx yy zz : List ℚ) (array_size mm from_index : Nat) :
    Int × (ℚ × ℚ × ℚ) × (ℚ × ℚ × ℚ) :=
  if from_index + mm > array_size then (1, est0, dest0)
  else
    let tpts := (tt.drop from_index).toArray
    let xpts := (xx.drop from_index).toArray
    let ypts := (yy.drop from_index).toArray
    let zpts := (zz.drop from_index).toArray
    let ns := nevArgmin t tpts mm
    let s0 : Nev3State :=
      { cx := takeArr xpts mm, dx := takeArr xpts mm,
        cy := takeArr ypts mm,
        dycz := takeArr zpts mm,
        dz := takeArr zpts mm,
        e0 := xpts.getD ns 0, e1 := ypts.getD ns 0, e2 := zpts.getD ns 0,
        de0 := dest0.1, de1 := dest0.2.1, de2 := dest0.2.2,
        nsx := (ns : Int) - 1, nsy := (ns : Int) - 1, nsz := (ns : Int) - 1 }
    let res := nev3Outer t tpts mm 1 (mm - 1) s0
    (res.1, (res.2.e0, res.2.e1, res.2.e2), (res.2.de0, res.2.de1, res.2.de2))

/-! ### SvInterpolator: index hunt and interpolate_at
(src/src/sv_interpolate.hpp:111-142, src/src/lib/sv_interpolate.cpp:173-284)

The time series lives in the interpolator's `data` array; C++ reads outside
`[0, num_dpts)` would be undefined behaviour, so the embedding totalizes
out-of-range accesses with a zero block and the theorems only exercise
in-range runs.  `min_dpts_on_each_side` is a field of the class header that
is not among the sources (only `lib/sv_interpolate.cpp` uses it), so it is
kept as an explicit parameter. -/

/-- Zero-filled default block for totalizing out-of-range reads. -/
def blockD (data : List Sp3DataBlock) (i : Nat) : Sp3DataBlock :=
  data.getD i ⟨0, 0, 0, 0, 0, 0, 0, 0, 0, 0, 0, 0, 0, 0, 0, 0, 0, ⟨0⟩⟩

/-- Model of `std::lower_bound(data, data + num_dpts, t, block.t < tt)`
(sv_interpolate.hpp:136-141): index of the first block whose time is not
less than `t` (`num_dpts` when there is none). -/
def lowerBound (data : List Sp3DataBlock) (t : Int) : Nat :=
  data.findIdx (fun b => decide (t ≤ b.t))

/-- Model of `SvInterpolator::index_hunt` (sv_interpolate.hpp:111-142): O(1) checks
against the cached `last_index` and its neighbours, falling back to
`std::lower_bound` over the whole series.  Returns the updated `last_index`
field value and the returned index (the fast paths that `++last_index` make
them equal; the fallback leaves `last_index` untouched). -/
def index_hunt (data : List Sp3DataBlock) (lastIndex : Nat) (t : Int) :
    Nat × Nat :=
  let n := data.length
  if (blockD data lastIndex).t ≤ t then
    if (lastIndex : Int) = (n : Int) - 1 then (lastIndex, lastIndex)
    else if (blockD data (lastIndex + 1)).t > t then (lastIndex, lastIndex)
    else if (lastIndex : Int) + 2 < (n : Int) - 1 then
      if (blockD data (lastIndex + 1)).t ≤ t ∧ (blockD data (lastIndex + 2)).t > t then
        (lastIndex + 1, lastIndex + 1)
      else (lastIndex, lowerBound data t)
    else if (lastIndex : Int) + 2 = (n : Int) then
      if (blockD data (lastIndex + 1)).t ≤ t then (lastIndex + 1, lastIndex + 1)
      else (lastIndex, lastIndex)
    else (lastIndex, lowerBound data t)
  else (lastIndex, lowerBound data t)

/-- The left expansion of `interpolate_at` (sv_interpolate.cpp:190-192):
`while (start > 0 && t - data[start].t < max_t) --start`. -/
def leftStart (data : List Sp3DataBlock) (t maxT : Int) : Nat → Nat
  | 0 => 0
  | s + 1 => if t - (blockD data (s + 1)).t < maxT then leftStart data t maxT s
    else s + 1

/-- The right expansion of `interpolate_at` (sv_interpolate.cpp:216-218):
`while (stop < num_dpts - 1 && data[stop].t - t < max_t) ++stop` (fuel `n`
always suffices since `stop` is bounded by `n - 1`). -/
def rightStop (data : List Sp3DataBlock) (n : Nat) (t maxT : Int) :
    Nat → Nat → Nat
  | stop, 0 => stop
  | stop, fuel + 1 =>
    if (stop : Int) < (n : Int) - 1 ∧ (blockD data stop).t - t < maxT then
      rightStop data n t maxT (stop + 1) fuel
    else stop

/-- The outputs of one `interpolate_at` call: the `int` status, the four
caller buffers (position, its error estimate, velocity, its error
estimate) and the `last_index` cache field after the call. -/
structure IAResult where
  status : Int
  pos : ℚ × ℚ × ℚ
  erpos : ℚ × ℚ × ℚ
  vel : ℚ × ℚ × ℚ
  ervel : ℚ × ℚ × ℚ
  last : Nat
deriving DecidableEq, Repr

/-- Model of `SvInterpolator::interpolate_at` (sv_interpolate.cpp:173-284).
`maxMillisec` is the `max_millisec` member (cast to nanoseconds for the
window comparisons), `minDpts` the `min_dpts_on_each_side` member,
`startEpoch` the file start epoch in nanoseconds, `wantVel` whether the
caller passed velocity output buffers, `lastIndex` the incoming cache
field, `t` the query time in nanoseconds; `pos0`/`erpos0`/`vel0`/`ervel0`
are the incoming contents of the caller's output buffers.  Times handed to
the Neville kernel are fractional seconds since the start epoch
(sv_interpolate.cpp:240-252). -/
def interpolate_at (data : List Sp3DataBlock) (maxMillisec minDpts startEpoch : Int)
    (wantVel : Bool) (lastIndex : Nat) (t : Int)
    (pos0 erpos0 vel0 ervel0 : ℚ × ℚ × ℚ) : IAResult :=
  let index := (index_hunt data lastIndex t).2
  let last := index                       -- last_index = index (line 178)
  let maxT := maxMillisec * 1000000
  let start := leftStart data t maxT index
  if (index : Int) - (start : Int) < minDpts then
    ⟨1, pos0, erpos0, vel0, ervel0, last⟩
  else
    let n := data.length
    let stop := rightStop data n t maxT index n
    if (stop : Int) - (index : Int) < minDpts then
      ⟨1, pos0, erpos0, vel0, ervel0, last⟩
    else
      let size := stop - start + 1
      let td := (List.range size).map
        (fun i => (((blockD data (start + i)).t - startEpoch : Int) : ℚ) / 1000000000)
      let xd := (List.range size).map (fun i => (blockD data (start + i)).px)
      let yd := (List.range size).map (fun i => (blockD data (start + i)).py)
      let zd := (List.range size).map (fun i => (blockD data (start + i)).pz)
      let tx := ((t - startEpoch : Int) : ℚ) / 1000000000
      let r := neville_interpolation3 tx pos0 erpos0 td xd yd zd size size 0
      if r.1 ≠ 0 then ⟨5, r.2.1, r.2.2, vel0, ervel0, last⟩
      else if wantVel then
        let xv := (List.range size).map (fun i => (blockD data (start + i)).vx)
        let yv := (List.range size).map (fun i => (blockD data (start + i)).vy)
        let zv := (List.range size).map (fun i => (blockD data (start + i)).vz)
        let rv := neville_interpolation3 tx vel0 ervel0 td xv yv zv size size 0
        if rv.1 ≠ 0 then ⟨6, r.2.1, r.2.2, rv.2.1, rv.2.2, last⟩
        else ⟨0, r.2.1, r.2.2, rv.2.1, rv.2.2, last⟩
      else ⟨0, r.2.1, r.2.2, vel0, ervel0, last⟩

/-! ### Header parsing and cross-validation  (src/src/lib/sp3_read_header.cpp)

The calendar/time type is an external collaborator (the `dso::datetime`
library): an absolute time is embedded as a total count of nanoseconds
since MJD 0, the calendar conversion (year, month, day) → MJD is an opaque
function parameter, and the collaborator's conversions to (GPS week,
seconds of week) and to fractional MJD are exact integer/rational
arithmetic on that count.  Each header line is embedded at the
lexical-field level: a `strtol` result of 0 models both the conversion
failure and the genuine zero the `!value` tests conflate; fields whose
failure is tested via `str_end` are `Option`s. -/

/-- Nanoseconds per day. -/
def dayNs : Int := 86400000000000

/-- MJD of the GPS epoch (1980-01-06), start of GPS week 0. -/
def gpsEpochMjd : Int := 44244

/-- External collaborator `gps_wsow` (week part): GPS week of an absolute
time in nanoseconds since MJD 0. -/
def gps_week (tns : Int) : Int := (tns - gpsEpochMjd * dayNs) / (7 * dayNs)

/-- External collaborator `gps_wsow` (seconds-of-week part, nanoseconds). -/
def gps_sow_ns (tns : Int) : Int :=
  tns - gpsEpochMjd * dayNs - gps_week tns * (7 * dayNs)

/-- External collaborator `to_fractional_seconds`. -/
def to_fractional_seconds (ns : Int) : ℚ := (ns : ℚ) / 1000000000

/-- External collaborator `datetime::fmjd`: fractional MJD. -/
def fmjd (tns : Int) : ℚ := (tns : ℚ) / (dayNs : ℚ)

/-- Model of `static_cast<long>` of a floating value: truncation toward zero. -/
def castToLong (q : ℚ) : Int := if 0 ≤ q then ⌊q⌋ else ⌈q⌉

/-- Header line 1 (`#c...`, sp3_read_header.cpp:28-75): marker, version
character, the date/time fields, the declared epoch count.  `hour` and
`minute` carry the `strtol` value with a separate conversion flag because
their failure test is `str_end == start` (a genuine 0 is legal), while
`year`/`month`/`dom`/`numEpochs` are tested with `!value`, so 0 models
their failure.  The label fields (coordinate system, orbit type, agency)
are plain copies and are not modelled. -/
structure HeaderLine1 where
  hash : Bool
  version : Char
  year : Int
  month : Int
  dom : Int
  hour : Int
  hourOk : Bool
  minute : Int
  minuteOk : Bool
  sec : ℚ
  numEpochs : Int
deriving DecidableEq, Repr

/-- Header line 2 (`## ...`, sp3_read_header.cpp:79-116): marker, declared
GPS week, seconds of week, nominal interval, declared MJD and fractional
day. -/
structure HeaderLine2 where
  marker : Bool
  gwk : Int
  sow : ℚ
  interval : ℚ
  mjd : Int
  fday : ℚ
deriving DecidableEq, Repr

/-- The remaining header sections (sp3_read_header.cpp:118-222), embedded
at the section level by the outcome of each marker/format check, in source
order: satellite-id lines (`+ `, codes 30/31), accuracy lines (`++`, codes
40/41), `%c` lines (50/51), `%f` lines (60/61/65) with the two std-dev
exponent bases, `%i` lines (70), comment lines (80; the code-81 iteration
cap is folded into `commentsOk`).  The satellite ids themselves feed
`sat_vec__`, used by `has_sv`, which theorems quantify over directly. -/
structure HeaderRest where
  satMarker : Bool
  numSats : Int
  accMarker : Bool
  accBounded : Bool
  c1 : Bool
  c2 : Bool
  f1 : Bool
  fpbPos : ℚ
  fpbClk : ℚ
  fClkConverted : Bool
  f2 : Bool
  i1 : Bool
  i2 : Bool
  commentsOk : Bool
deriving DecidableEq, Repr

/-- The header information the reader keeps (subset relevant to the
claims). -/
structure Sp3Header where
  startEpoch : Int
  intervalNs : Int
  numEpochs : Int
  fpbPos : ℚ
  fpbClk : ℚ
deriving DecidableEq, Repr

/-- The start epoch constructed from header line 1
(sp3_read_header.cpp:71-75): the date handed to the external calendar
conversion, hours/minutes as nanosecond counts, and the `strtod` seconds
cast through `static_cast<long>(sec * sec_factor)`. -/
def startEpochOf (dateToMjd : Int → Int → Int → Int) (l1 : HeaderLine1) : Int :=
  dateToMjd l1.year l1.month l1.dom * dayNs + l1.hour * 3600000000000
    + l1.minute * 60000000000 + castToLong (l1.sec * 1000000000)

/-- The line-1 checks of `read_header` (sp3_read_header.cpp:28-65), with
each early return's error code. -/
def read_header_line1 (l1 : HeaderLine1) : Except Int Unit :=
  if ¬ l1.hash then .error 10
  else if l1.version ≠ 'c' ∧ l1.version ≠ 'd' then .error 10
  else if l1.year = 0 then .error 11
  else if l1.month = 0 then .error 12
  else if l1.dom = 0 then .error 13
  else if ¬ l1.hourOk then .error 14
  else if ¬ l1.minuteOk then .error 15
  else if l1.numEpochs = 0 then .error 16
  else .ok ()

/-- The line-2 checks of `read_header` (sp3_read_header.cpp:79-116):
marker (code 20), declared week (21), the (week, seconds-of-week)
cross-validation against the start epoch with the 1e-9-second tolerance
(22), the declared MJD (23), and the exact (MJD + fractional-day)
cross-validation against the start epoch's fractional MJD (24).  On
success yields the nominal interval in nanoseconds. -/
def read_header_line2 (startEpoch : Int) (l2 : HeaderLine2) : Except Int Int :=
  if ¬ l2.marker then .error 20
  else if l2.gwk = 0 then .error 21
  else if gps_week startEpoch ≠ l2.gwk
      ∨ |to_fractional_seconds (gps_sow_ns startEpoch) - l2.sow|
        > 1 / 1000000000 then .error 22
  else
    let intervalNs := castToLong (l2.interval * 1000000000)
    if l2.mjd = 0 then .error 23
    else if l2.fday + (l2.mjd : ℚ) ≠ fmjd startEpoch then .error 24
    else .ok intervalNs

/-- The section checks of `read_header` after line 2
(sp3_read_header.cpp:118-222). -/
def read_header_rest (hr : HeaderRest) : Except Int Unit :=
  if ¬ hr.satMarker then .error 30
  else if hr.numSats = 0 then .error 31
  else if ¬ hr.accMarker then .error 40
  else if ¬ hr.accBounded then .error 41
  else if ¬ hr.c1 then .error 50
  else if ¬ hr.c2 then .error 51
  else if ¬ hr.f1 then .error 60
  else if ¬ hr.fClkConverted ∨ hr.fpbPos = 0 ∨ hr.fpbClk = 0 then .error 61
  else if ¬ hr.f2 then .error 65
  else if ¬ hr.i1 then .error 70
  else if ¬ hr.i2 then .error 70
  else if ¬ hr.commentsOk then .error 80
  else .ok ()

/-- Model of `Sp3c::read_header` (sp3_read_header.cpp:14-229): the three sections in
source order, each early return propagating its error code.  Construction of
the reader (`Sp3c::Sp3c`, sp3.cpp:349-359) throws on any nonzero result, so
`Except.error` is exactly "no usable reader object". -/
def read_header (dateToMjd : Int → Int → Int → Int) (l1 : HeaderLine1)
    (l2 : HeaderLine2) (hr : HeaderRest) : Except Int Sp3Header :=
  match read_header_line1 l1 with
  | .error e => .error e
  | .ok () =>
    let startEpoch := startEpochOf dateToMjd l1
    match read_header_line2 startEpoch l2 with
    | .error e => .error e
    | .ok intervalNs =>
      match read_header_rest hr with
      | .error e => .error e
      | .ok () => .ok ⟨startEpoch, intervalNs, l1.numEpochs, hr.fpbPos, hr.fpbClk⟩

/-! ### Concrete instances used by the theorems below -/

/-- Satellite id `G01` (bytes of `'G'`, `'0'`, `'1'`). -/
def G01 : SatelliteId := ⟨71, 48, 49⟩

/-- Satellite id `G02`. -/
def G02 : SatelliteId := ⟨71, 48, 50⟩

/-- A well-formed `P` record line with the four numeric fields parsed and
no std-dev columns or event markers. -/
def pLine (s : SatelliteId) (a b c d : ℚ) : Line :=
  Line.pos ⟨s, some a, some b, some c, some d, none, none, none, none,
    false, false, false, false⟩

/-- A default-constructed `Sp3DataBlock` whose indeterminate numeric
content happens to be zero. -/
def blk0 : Sp3DataBlock := ⟨0, 0, 0, 0, 0, 0, 0, 0, 0, 0, 0, 0, 0, 0, 0, 0, 0, ⟨0⟩⟩

/-- A data section with a single epoch: one `*` line, one `P` record for
`G01`, then the `EOF` sentinel. -/
def file1 : List Line := [Line.epoch 0, pLine G01 1 2 3 4, Line.eofLine]

/-- A data section with two epochs.  Epoch 1 carries a `P` record for `G01`
(position 10, 20, 30) followed by one for `G02` (position 1, 2, 3);
epoch 2 carries a `P` record for `G01`. -/
def file2 : List Line := [Line.epoch 0, pLine G01 10 20 30 40, pLine G02 1 2 3 4,
  Line.epoch 900000000000, pLine G01 11 21 31 41, Line.eofLine]

/-- Number of epoch-header (`*`) lines in a data section. -/
def epochHeaderCount (ls : List Line) : Nat :=
  ls.countP (fun l => match l with
    | Line.epoch _ => true
    | Line.epochBad _ => true
    | _ => false)

/-- Driver that repeatedly calls `get_next_data_block` and records the
returned statuses, stopping after the first nonzero status — the loop shape
of `feed_from_sp3` and of any read-to-end-of-stream caller. -/
def readStatuses (satid : SatelliteId) (fpbPos fpbClk : ℚ) :
    Nat → Sp3DataBlock → Stream → List Int
  | 0, _, _ => []
  | fuel + 1, blk, st =>
    let r := get_next_data_block satid fpbPos fpbClk blk st
    if r.1 = 0 then r.1 :: readStatuses satid fpbPos fpbClk fuel r.2.1 r.2.2
    else [r.1]

/-- A block of the interpolator's series at time `t` (nanoseconds) with
position `(x, x+1, x+2)`. -/
def mkB (t : Int) (x : ℚ) : Sp3DataBlock :=
  ⟨t, x, x + 1, x + 2, 0, 0, 0, 0, 0, 0, 0, 0, 0, 0, 0, 0, 0, ⟨0⟩⟩

/-- A five-sample series at 100 ns spacing. -/
def ser : List Sp3DataBlock := [mkB 0 0, mkB 100 1, mkB 200 2, mkB 300 3, mkB 400 4]

/-- A series with two coincident leading timestamps (a window over it makes
the Neville tableau fail). -/
def serDup : List Sp3DataBlock :=
  [mkB 0 0, mkB 0 1, mkB 100000000000 2, mkB 200000000000 3]

/-- Zero triple: the initial contents of a caller's output buffers. -/
def z3 : ℚ × ℚ × ℚ := (0, 0, 0)

/-- Header line 1 of a consistent header: 1980-01-13 00:00:00, 96 epochs. -/
def l1ex : HeaderLine1 := ⟨true, 'c', 1980, 1, 13, 0, true, 0, true, 0, 96⟩

/-- Header line 2 consistent with `l1ex` under the calendar that maps the
date to MJD 44251 (the start of GPS week 1): week 1, 0 seconds of week,
900 s interval, MJD 44251, fractional day 0. -/
def l2ex : HeaderLine2 := ⟨true, 1, 0, 900, 44251, 0⟩

/-- Remaining header sections, all well-formed, with std-dev bases 1.25 and
1.025. -/
def hrEx : HeaderRest :=
  ⟨true, 1, true, true, true, true, true, 5/4, 41/40, true, true, true, true, true⟩

/-- A well-formed `P`-record line carrying satellite `G02`. -/
def rG02 : RecLine :=
  ⟨G02, some 1, some 2, some 3, some 4, none, none, none, none,
    false, false, false, false⟩

/-- An arbitrary pre-call state of the position/clock slice: nonzero
numerics, a flag with `clock_event` set, satellite variable holding `G01`. -/
def psEx : PcSlice := ⟨7, 8, 9, 10, 11, 12, 13, 14, ⟨4⟩, G01⟩

/-- Decidable equality for `Except` results (not derived by the library). -/
instance {e a : Type} [DecidableEq e] [DecidableEq a] : DecidableEq (Except e a)
  | .error x, .error y =>
    if h : x = y then .isTrue (h ▸ rfl)
    else .isFalse (fun hc => h (by injection hc))
  | .error _, .ok _ => .isFalse (fun hc => Except.noConfusion hc)
  | .ok _, .error _ => .isFalse (fun hc => Except.noConfusion hc)
  | .ok x, .ok y =>
    if h : x = y then .isTrue (h ▸ rfl)
    else .isFalse (fun hc => h (by injection hc))

/-! ## Theorems -/

set_option maxRecDepth 4000


/-- Claim C1. The claim states that `neville_interpolation3` returns, per
component, exactly what `neville_interpolation` returns on that component's
ordinates — each component driven by its own c/d tableau pair.  The code
violates this: the accumulation (neville_interp.cpp:200-202) reads `cx`/`dx`
for the y and z components (and `cz` aliases `dy` at
`workspace + 3*array_size`, lines 126-127).  At abscissas `0, 1` with
y ordinates `0, 1` and query point `1/2`, both functions succeed, the
scalar interpolation of the y component yields `1/2`, but the 3-component
form yields `0` for y — contradicting the code's own documentation of the
function as per-array interpolation. -/
theorem c1_neville3_y_component_not_scalar_neville :
    (neville_interpolation3 (1/2) (0, 0, 0) (0, 0, 0)
        [0, 1] [0, 0] [0, 1] [0, 0] 2 2 0).1 = 0
    ∧ (neville_interpolation (1/2) 0 0 [0, 1] [0, 1] 2 2 0).1 = 0
    ∧ (neville_interpolation (1/2) 0 0 [0, 1] [0, 1] 2 2 0).2.1 = 1/2
    ∧ (neville_interpolation3 (1/2) (0, 0, 0) (0, 0, 0)
        [0, 1] [0, 0] [0, 1] [0, 0] 2 2 0).2.1.2.1 = 0 := by
  refine ⟨by with_unfolding_all decide, by with_unfolding_all decide,
    by with_unfolding_all decide, by with_unfolding_all decide⟩

/-- Claim C2. The claim states that reading to end-of-stream yields exactly
one successfully returned block per `*` epoch-header line.  The code
violates this: when the record loop consumes the `EOF` sentinel it returns
−1 (sp3.cpp:471-474, 485), folding the last epoch's fully parsed block into
the end-of-stream report.  On a file with one epoch header, the very first
call returns −1 — zero successful returns — even though the epoch was
resolved and its `P` record parsed into the block (its position is
1, 2, 3); the loop shape of `feed_from_sp3` therefore drops the final
epoch of every file. -/
theorem c2_one_epoch_file_yields_zero_success_blocks :
    epochHeaderCount file1 = 1
    ∧ readStatuses G01 (5/4) (41/40) 4 blk0 ⟨file1, true⟩ = [-1]
    ∧ (get_next_data_block G01 (5/4) (41/40) blk0 ⟨file1, true⟩).2.1.px = 1
    ∧ (get_next_data_block G01 (5/4) (41/40) blk0 ⟨file1, true⟩).2.1.py = 2 := by
  refine ⟨by with_unfolding_all decide, by with_unfolding_all decide,
    by with_unfolding_all decide, by with_unfolding_all decide⟩

/-- Claim C3. The claim states that `interpolate_at` is cache-invariant: the
same query time yields identical results regardless of prior queries.  The
code violates this because the `index_hunt` fallback
(sv_interpolate.hpp:136-141) returns the `lower_bound` index (first sample
with time ≥ t) while the fast path returns the bracketing index
(last sample with time ≤ t).  On the series `ser` (times 0..400 ns) with
2 minimum points per side: a fresh query at t = 150 takes the fast path,
gets index 1, and fails with "too few points on the left" (status 1);
after a prior query at t = 350 (which leaves `last_index = 4`) the same
query at t = 150 takes the fallback, gets index 2, and succeeds
(status 0) with a position — the spec's §8 testable property and the
function's own bracketing diagram (sv_interpolate.hpp:113-116) describe
the fast path's convention, so the fallback is the slip. -/
theorem c3_interpolate_at_not_cache_invariant :
    (interpolate_at ser 1000000000 2 0 false 0 150 z3 z3 z3 z3).status = 1
    ∧ (interpolate_at ser 1000000000 2 0 false 0 350 z3 z3 z3 z3).last = 4
    ∧ (interpolate_at ser 1000000000 2 0 false 4 150 z3 z3 z3 z3).status = 0
    ∧ (interpolate_at ser 1000000000 2 0 false 4 150 z3 z3 z3 z3).pos
        ≠ (interpolate_at ser 1000000000 2 0 false 0 150 z3 z3 z3 z3).pos := by
  refine ⟨by with_unfolding_all decide, by with_unfolding_all decide,
    by with_unfolding_all decide, by with_unfolding_all decide⟩

/-- Claim C5. The claim states that after successful construction the owned
series contains only blocks of the requested satellite.  The code violates
this: `get_next_data_block` passes the same variable `satid` as the
record-id output and as the filter pointer (sp3.cpp:458-461; the local
`csatid` of line 427 is never used), so after `get_next_position` copies
the line's id into it the `*wsat != sat` comparison never fires and every
`P` record of every satellite is parsed into the block, last writer
winning.  Feeding `file2` for `G01` succeeds (status 0) and retains one
block whose position is `(1, 2, 3)` — the values of `G02`'s record — even
though `G01`'s own record in that epoch carried `(10, 20, 30)`.  (Flag
bits 768 = absent-velocity and absent-clock-rate, left over from the
pessimistic defaults.) -/
theorem c5_series_contains_other_satellites_data :
    feed_from_sp3 G01 [G01, G02] 3 (5/4) (41/40) file2 blk0
      = (0, [⟨0, 1, 2, 3, 4, 0, 0, 0, 0, 0, 0, 0, 0, 0, 0, 0, 0, ⟨768⟩⟩]) := by
  with_unfolding_all decide

/-- Claim C6. The claim states that the multi-event `set(e1 | e2)` is a
bitwise-or into the flag, preserving every previously set event
(equivalent to `set(e1)` then `set(e2)`).  The code violates this:
`Sp3Flag::set(Sp3FlagWrapper)` assigns `bits_ = wf.bits_` (sp3flag.hpp:30)
instead of or-ing, contradicting its own documentation ("Enable bitwise
multiple Sp3Event's set") and the documented no-reset contract of
`get_next_velocity` (sp3.cpp:98-102).  Starting from a flag with
`clock_event` set, `set(bad_abscent_position | bad_abscent_clock)` leaves
`clock_event` cleared, while the sequential sets keep it. -/
theorem c6_wrapper_set_overwrites_prior_events :
    (((Sp3Flag.reset.set .clock_event).setW
        (orEE .bad_abscent_position .bad_abscent_clock)).is_set .clock_event
      = false)
    ∧ ((((Sp3Flag.reset.set .clock_event).set .bad_abscent_position).set
        .bad_abscent_clock).is_set .clock_event = true)
    ∧ ((Sp3Flag.reset.set .clock_event).setW
        (orEE .bad_abscent_position .bad_abscent_clock)
      ≠ ((Sp3Flag.reset.set .clock_event).set .bad_abscent_position).set
        .bad_abscent_clock) := by
  refine ⟨by with_unfolding_all decide, by with_unfolding_all decide,
    by with_unfolding_all decide⟩

/-- Model of `strncmp`-equality coincides with byte-exact equality of the three id
characters whenever the first two bytes of the stored id are non-NUL (true
of every id read from a text line, where a NUL byte cannot occur). -/
theorem satEq_eq_true_iff (s satid : SatelliteId) (h0 : s.b0 ≠ 0)
    (h1 : s.b1 ≠ 0) : satEq s satid = true ↔ s = satid := by
  rcases s with ⟨a0, a1, a2⟩
  rcases satid with ⟨c0, c1, c2⟩
  simp only [satEq, SatelliteId.mk.injEq] at *
  split_ifs <;> simp_all [decide_eq_true_eq]

/-- Claim C4. Header construction succeeds only if the start epoch built from
line 1 reproduces, within the 1e-9-second tolerance for the seconds of
week and exactly for the fractional MJD, both pairs independently declared
on line 2; and whenever either declared pair disagrees, `read_header`
returns an error code (construction throws, sp3.cpp:349-359, so no reader
object is produced). -/
theorem c4_header_cross_validation (dateToMjd : Int → Int → Int → Int)
    (l1 : HeaderLine1) (l2 : HeaderLine2) (hr : HeaderRest) :
    (∀ h : Sp3Header, read_header dateToMjd l1 l2 hr = .ok h →
      gps_week (startEpochOf dateToMjd l1) = l2.gwk
      ∧ |to_fractional_seconds (gps_sow_ns (startEpochOf dateToMjd l1)) - l2.sow|
          ≤ 1 / 1000000000
      ∧ l2.fday + (l2.mjd : ℚ) = fmjd (startEpochOf dateToMjd l1))
    ∧ ((gps_week (startEpochOf dateToMjd l1) ≠ l2.gwk
        ∨ |to_fractional_seconds (gps_sow_ns (startEpochOf dateToMjd l1)) - l2.sow|
            > 1 / 1000000000
        ∨ l2.fday + (l2.mjd : ℚ) ≠ fmjd (startEpochOf dateToMjd l1)) →
      ∃ e, read_header dateToMjd l1 l2 hr = .error e) := by
  have main : ∀ h : Sp3Header, read_header dateToMjd l1 l2 hr = .ok h →
      gps_week (startEpochOf dateToMjd l1) = l2.gwk
      ∧ |to_fractional_seconds (gps_sow_ns (startEpochOf dateToMjd l1)) - l2.sow|
          ≤ 1 / 1000000000
      ∧ l2.fday + (l2.mjd : ℚ) = fmjd (startEpochOf dateToMjd l1) := by
    intro h hok
    unfold read_header at hok
    have h2 : ∃ iv, read_header_line2 (startEpochOf dateToMjd l1) l2 = .ok iv := by
      rcases e1 : read_header_line1 l1 with e | u
      · simp [e1] at hok
      · cases u
        rcases e2 : read_header_line2 (startEpochOf dateToMjd l1) l2 with e | iv
        · simp [e1, e2] at hok
        · exact ⟨iv, rfl⟩
    obtain ⟨iv, h2⟩ := h2
    unfold read_header_line2 at h2
    split at h2
    · exact Except.noConfusion h2
    · split at h2
      · exact Except.noConfusion h2
      · split at h2
        · exact Except.noConfusion h2
        · split at h2
          · exact Except.noConfusion h2
          · split at h2
            · exact Except.noConfusion h2
            · rename_i hw hmjd
              rename_i h21 h22
              push_neg at h22
              push_neg at hmjd
              exact ⟨h22.1, h22.2, hmjd⟩
  refine ⟨main, fun hdis => ?_⟩
  rcases hres : read_header dateToMjd l1 l2 hr with e | h
  · exact ⟨e, rfl⟩
  · rcases main h hres with ⟨hA, hB, hC⟩
    rcases hdis with hd | hd | hd
    · exact absurd hA hd
    · exact absurd hB (not_le.mpr hd)
    · exact absurd hC hd

/-- Witness for C4: a concrete consistent header (date mapped to MJD 44251,
the start of GPS week 1; declared week 1, 0 seconds of week, MJD 44251,
fractional day 0) on which `read_header` succeeds and the theorem yields
the three agreements. -/
theorem c4_header_cross_validation_witness :
    gps_week (startEpochOf (fun _ _ _ => 44251) l1ex) = l2ex.gwk
    ∧ |to_fractional_seconds (gps_sow_ns (startEpochOf (fun _ _ _ => 44251) l1ex))
        - l2ex.sow| ≤ 1 / 1000000000
    ∧ l2ex.fday + (l2ex.mjd : ℚ) = fmjd (startEpochOf (fun _ _ _ => 44251) l1ex) :=
  (c4_header_cross_validation (fun _ _ _ => 44251) l1ex l2ex hrEx).1
    ⟨3823286400000000000, 900000000000, 96, 5/4, 41/40⟩ (by
      have hse : startEpochOf (fun _ _ _ => 44251) l1ex = 3823286400000000000 := by
        with_unfolding_all decide
      have e1 : read_header_line1 l1ex = .ok () := by with_unfolding_all decide
      have e2 : read_header_line2 (startEpochOf (fun _ _ _ => 44251) l1ex) l2ex
          = .ok 900000000000 := by
        rw [hse]
        unfold read_header_line2
        norm_num [gps_week, gps_sow_ns, to_fractional_seconds, fmjd, dayNs,
          gpsEpochMjd, castToLong, l2ex]
      have e3 : read_header_rest hrEx = .ok () := by with_unfolding_all decide
      rw [hse] at e2
      unfold read_header
      rw [e1]
      simp only [e2, e3, hse]
      rfl)

/-- Claim C7. `has_sv` is true iff the queried id byte-exactly matches an
entry of the declared satellite list (the `strncmp` early NUL stop cannot
fire on ids read from text lines, whose bytes are non-NUL); and
`SatelliteId` construction from a C string copies exactly the first three
characters, so input differing only beyond the third character yields the
same id. -/
theorem c7_has_sv_exact_match :
    (∀ (vec : List SatelliteId) (satid : SatelliteId),
        (∀ s ∈ vec, s.b0 ≠ 0 ∧ s.b1 ≠ 0) →
        (has_sv vec satid = true ↔ satid ∈ vec))
    ∧ ∀ (s t : List Nat), 3 ≤ s.length →
        satFromCString (s ++ t) = satFromCString s := by
  constructor
  · intro vec satid hwf
    unfold has_sv
    rw [List.any_eq_true]
    constructor
    · rintro ⟨s, hs, heq⟩
      rw [satEq_eq_true_iff s satid (hwf s hs).1 (hwf s hs).2] at heq
      rwa [heq] at hs
    · intro hmem
      exact ⟨satid, hmem,
        (satEq_eq_true_iff satid satid (hwf satid hmem).1 (hwf satid hmem).2).mpr rfl⟩
  · intro s t hlen
    unfold satFromCString
    rw [List.getD_append _ _ _ _ (by omega), List.getD_append _ _ _ _ (by omega),
        List.getD_append _ _ _ _ (by omega)]

/-- Witness for C7: membership of `G01` in a singleton list, and truncation
of the 4-byte input `G01` ++ one extra byte. -/
theorem c7_has_sv_exact_match_witness :
    (has_sv [G01] G01 = true ↔ G01 ∈ [G01])
    ∧ satFromCString ([71, 48, 49] ++ [50]) = satFromCString [71, 48, 49] :=
  ⟨c7_has_sv_exact_match.1 [G01] G01 (by decide),
   c7_has_sv_exact_match.2 [71, 48, 49] [50] (by decide)⟩

/-- Claim C8, counterexample. The claim asserts pairwise-distinct error
codes for the too-few-left, too-few-right and tableau failures.  On the
series `ser` with 2 minimum points per side: the query at t = 0 hunts to
index 0 with window start 0 (a left-side failure) and returns 1; the query
at t = 400 hunts to index 4 with window stop 4 (the left side holds 4
points, a right-side failure) and returns the same code 1; the coincident
abscissas of `serDup` return 5.  The left and right codes are therefore
not distinct (sv_interpolate.cpp:212 and 225 both `return 1`). -/
theorem c8_left_right_same_error_code :
    ((index_hunt ser 0 0).2 = 0
      ∧ leftStart ser 0 1000000000000000 0 = 0
      ∧ (interpolate_at ser 1000000000 2 0 false 0 0 z3 z3 z3 z3).status = 1)
    ∧ ((index_hunt ser 0 400).2 = 4
      ∧ rightStop ser 5 400 1000000000000000 4 5 = 4
      ∧ (interpolate_at ser 1000000000 2 0 false 0 400 z3 z3 z3 z3).status = 1)
    ∧ (interpolate_at serDup 1000000000 1 0 false 0 10000000000 z3 z3 z3 z3).status
        = 5 := by
  refine ⟨⟨?_, ?_, ?_⟩, ⟨?_, ?_, ?_⟩, ?_⟩ <;> with_unfolding_all decide

/-- Claim C8, amended. `interpolate_at` returns 0 on success, and otherwise
one of three codes: 1 for too few points (on either side — the left and
right failures share this code), 5 for a position-tableau failure, and 6
for a velocity-tableau failure.  Every call returns one of these four
values. -/
theorem c8_status_code_set (data : List Sp3DataBlock)
    (maxMillisec minDpts startEpoch : Int) (wantVel : Bool) (lastIndex : Nat)
    (t : Int) (pos0 erpos0 vel0 ervel0 : ℚ × ℚ × ℚ) :
    (interpolate_at data maxMillisec minDpts startEpoch wantVel lastIndex t
      pos0 erpos0 vel0 ervel0).status = 0
    ∨ (interpolate_at data maxMillisec minDpts startEpoch wantVel lastIndex t
      pos0 erpos0 vel0 ervel0).status = 1
    ∨ (interpolate_at data maxMillisec minDpts startEpoch wantVel lastIndex t
      pos0 erpos0 vel0 ervel0).status = 5
    ∨ (interpolate_at data maxMillisec minDpts startEpoch wantVel lastIndex t
      pos0 erpos0 vel0 ervel0).status = 6 := by
  unfold interpolate_at
  dsimp only
  split_ifs <;>
    first
      | exact Or.inl rfl
      | exact Or.inr (Or.inl rfl)
      | exact Or.inr (Or.inr (Or.inl rfl))
      | exact Or.inr (Or.inr (Or.inr rfl))

/-- Euclidean division rounds up to the ceiling after adding one whenever
the divisor is positive and does not divide the dividend. -/
theorem ceil_intCast_div_pos {a b : Int} (hb : 0 < b) (hnd : ¬ b ∣ a) :
    ⌈((a : Int) : ℚ) / ((b : Int) : ℚ)⌉ = a / b + 1 := by
  have hq : b * (a / b) + a % b = a := Int.ediv_add_emod a b
  have hr0 : 0 ≤ a % b := Int.emod_nonneg a (ne_of_gt hb)
  have hrb : a % b < b := Int.emod_lt_of_pos a hb
  have hrne : a % b ≠ 0 := fun hz => hnd (Int.dvd_of_emod_eq_zero hz)
  have hbq : (b : ℚ) ≠ 0 := Int.cast_ne_zero.mpr (ne_of_gt hb)
  have hq' : ((b : ℚ) * ((a / b : Int) : ℚ) + ((a % b : Int) : ℚ)) = (a : ℚ) := by
    exact_mod_cast congrArg (fun z : Int => (z : ℚ)) hq
  have hx : (a : ℚ) / b = ((a / b : Int) : ℚ) + ((a % b : Int) : ℚ) / (b : ℚ) := by
    rw [← hq']
    field_simp
    ring
  rw [Int.ceil_eq_iff]
  constructor
  · push_cast
    rw [hx]
    have hpos : 0 < ((a % b : Int) : ℚ) / (b : ℚ) := by
      apply div_pos
      · exact_mod_cast lt_of_le_of_ne hr0 (Ne.symm hrne)
      · exact_mod_cast hb
    linarith
  · push_cast
    rw [hx]
    have hle : ((a % b : Int) : ℚ) / (b : ℚ) ≤ 1 := by
      rw [div_le_one (by exact_mod_cast hb)]
      exact_mod_cast hrb.le
    linarith

/-- Claim C9, counterexample. The claim asserts the workspace size is
`ceil(max_duration / nominal_interval) * 2 + 1`.  At a 7 200 000 ms
look-around and 900-second interval the duration is an exact multiple of
the interval: the code (sv_interpolate.cpp:4-11) computes
`(7200000000000000 / 900000000000 + 1) * 2 + 1 = 19`, while the claimed
formula gives `2 * 8 + 1 = 17`. -/
theorem c9_workspace_not_ceil :
    compute_workspace_size 7200000 900000000000
      ≠ 2 * ⌈((7200000 * 1000000 : Int) : ℚ) / ((900000000000 : Int) : ℚ)⌉ + 1 := by
  with_unfolding_all decide

/-- Claim C9, amended. The workspace size is `(⌊max/interval⌋ + 1) * 2 + 1`,
which equals `ceil(max/interval) * 2 + 1` exactly when the interval does
not divide the maximum look-around duration (and is larger by 2 when it
does, as the counterexample shows). -/
theorem c9_workspace_floor_plus_one (maxMillisec intervalNs : Int)
    (hmax : 0 < maxMillisec) (hint : 0 < intervalNs)
    (hnd : ¬ intervalNs ∣ maxMillisec * 1000000) :
    compute_workspace_size maxMillisec intervalNs
      = 2 * ⌈((maxMillisec * 1000000 : Int) : ℚ) / ((intervalNs : Int) : ℚ)⌉ + 1 := by
  unfold compute_workspace_size
  dsimp only
  have ha : (0 : Int) ≤ maxMillisec * 1000000 := by positivity
  rw [Int.tdiv_eq_ediv ha hint.le, ceil_intCast_div_pos hint hnd]
  ring

/-- Witness for C9 (amended): a 7 200 000 ms look-around over a 700-second
interval (not a divisor), where the code's size 23 equals the ceiling
formula. -/
theorem c9_workspace_floor_plus_one_witness :
    0 < (7200000 : Int) ∧ 0 < (700000000000 : Int)
    ∧ ¬ ((700000000000 : Int) ∣ 7200000 * 1000000)
    ∧ compute_workspace_size 7200000 700000000000
      = 2 * ⌈((7200000 * 1000000 : Int) : ℚ) / ((700000000000 : Int) : ℚ)⌉ + 1 :=
  ⟨by decide, by decide, by decide,
   c9_workspace_floor_plus_one 7200000 700000000000 (by decide) (by decide)
     (by decide)⟩

/-- Claim C10. When a `P` (resp. `V`) record line carries a satellite id that
does not match the requested filter, the record parser returns success
(status 0) having copied the line's id into the out-parameter and set the
corresponding absent flags, and every numeric output — the four state
values and the four std-dev values — retains exactly its pre-call
contents. -/
theorem c10_mismatched_record_frame (r : RecLine) (w : SatelliteId)
    (fpbPos fpbClk : ℚ) (ps : PcSlice) (hne : satEq w r.sat = false) :
    get_next_position (Line.pos r) (some w) fpbPos fpbClk ps
      = (0, { ps with
              sat := r.sat,
              flag := ps.flag.setW (orEE .bad_abscent_position .bad_abscent_clock) })
    ∧ get_next_velocity (Line.vel r) (some w) fpbPos fpbClk ps
      = (0, { ps with
              sat := r.sat,
              flag := ps.flag.setW
                (orEE .bad_abscent_velocity .bad_abscent_clock_rate) }) := by
  constructor <;> simp [get_next_position, get_next_velocity, hne]

/-- Witness for C10: filtering for `G01` against a `G02` record line leaves
the concrete slice `psEx` numerically untouched for both record kinds. -/
theorem c10_mismatched_record_frame_witness :
    get_next_position (Line.pos rG02) (some G01) (5/4) (41/40) psEx
      = (0, { psEx with
              sat := rG02.sat,
              flag := psEx.flag.setW (orEE .bad_abscent_position .bad_abscent_clock) })
    ∧ get_next_velocity (Line.vel rG02) (some G01) (5/4) (41/40) psEx
      = (0, { psEx with
              sat := rG02.sat,
              flag := psEx.flag.setW
                (orEE .bad_abscent_velocity .bad_abscent_clock_rate) }) :=
  c10_mismatched_record_frame rG02 G01 (5/4) (41/40) psEx (by decide)

end Sp3
